import Mathlib

/-!
Verification of the `frame-rate` Rust crate (`src/lib.rs`): a `FrameRate`
value type with conversions to and from an exact rational number over
unsigned 32-bit integers and a `{num, den}` serialized record form.

Machine integers (`u32`) are modelled as `Nat` with explicit `< 2^32`
bounds where a claim mentions them; all operations appearing in the
source (gcd, division) map `u32` values exactly to the same `Nat`
values, so the embedding is exact on in-range inputs.
-/

namespace FrameRateLib

/-- The `num_rational::Ratio<u32>` pair: a numerator and a denominator.
Values built by the crate always go through the reducing constructor
`Ratio::new` (or `from_integer`), so they are in lowest terms. -/
structure Ratio where
  numer : Nat
  denom : Nat
deriving DecidableEq

/-- Reduction to lowest terms, as performed inside `Ratio::new`:
divide both components by their greatest common divisor. -/
def Ratio.reduce (num den : Nat) : Ratio :=
  ⟨num / Nat.gcd num den, den / Nat.gcd num den⟩

/-- The fallible constructor `Ratio::new(num, den)`: it panics when the
denominator is zero, modelled here as `none`; otherwise it returns the
reduced pair. -/
def Ratio.new? (num den : Nat) : Option Ratio :=
  if den = 0 then none else some (Ratio.reduce num den)

/-- `Ratio::from_integer(n)`, the rational `n / 1`. -/
def Ratio.from_integer (n : Nat) : Ratio :=
  ⟨n, 1⟩

/-- A ratio is in lowest terms with a nonzero denominator: the invariant
maintained by every `Ratio` the crate constructs. -/
def Ratio.Reduced (r : Ratio) : Prop :=
  Nat.gcd r.numer r.denom = 1 ∧ r.denom ≠ 0

instance (r : Ratio) : Decidable r.Reduced := by
  unfold Ratio.Reduced; infer_instance

/-- The `FrameRate` enum from the source: ten named broadcast rates and
a custom variant carrying an arbitrary rational. -/
inductive FrameRate where
  | _24_00
  | _25_00
  | _30_00
  | _50_00
  | _60_00
  | _120_00
  | _23_97
  | _24_97
  | _29_97
  | _59_94
  | FrCustom (rational : Ratio)
deriving DecidableEq

/-- `impl From<FrameRate> for Ratio<u32>`: the table of exact rational
values. The source writes `Ratio::new(24000, 1001)` etc.; those literal
denominators are nonzero, so `Ratio::new` cannot panic there and is
exactly `Ratio.reduce`. -/
def frameRateToRatio : FrameRate → Ratio
  | ._24_00 => Ratio.from_integer 24
  | ._25_00 => Ratio.from_integer 25
  | ._30_00 => Ratio.from_integer 30
  | ._50_00 => Ratio.from_integer 50
  | ._60_00 => Ratio.from_integer 60
  | ._120_00 => Ratio.from_integer 120
  | ._23_97 => Ratio.reduce 24000 1001
  | ._24_97 => Ratio.reduce 25000 1001
  | ._29_97 => Ratio.reduce 30000 1001
  | ._59_94 => Ratio.reduce 60000 1001
  | .FrCustom rational => rational

/-- `impl From<Ratio<u32>> for FrameRate` (normalization): match the
numerator/denominator pair against the ten table entries, otherwise
wrap the rational in the custom variant. The Rust `match` on literal
pairs is written as the equivalent chain of equality tests. -/
def ratioToFrameRate (rational : Ratio) : FrameRate :=
  if rational.numer = 24 ∧ rational.denom = 1 then ._24_00
  else if rational.numer = 25 ∧ rational.denom = 1 then ._25_00
  else if rational.numer = 30 ∧ rational.denom = 1 then ._30_00
  else if rational.numer = 50 ∧ rational.denom = 1 then ._50_00
  else if rational.numer = 60 ∧ rational.denom = 1 then ._60_00
  else if rational.numer = 120 ∧ rational.denom = 1 then ._120_00
  else if rational.numer = 24000 ∧ rational.denom = 1001 then ._23_97
  else if rational.numer = 25000 ∧ rational.denom = 1001 then ._24_97
  else if rational.numer = 30000 ∧ rational.denom = 1001 then ._29_97
  else if rational.numer = 60000 ∧ rational.denom = 1001 then ._59_94
  else .FrCustom rational

/-- `FrameRate::new(num, den)`: `Ratio::new(num, den).into()`. The
zero-denominator panic of `Ratio::new` propagates as `none`. -/
def FrameRate.new (num den : Nat) : Option FrameRate :=
  (Ratio.new? num den).map ratioToFrameRate

/-- The serialized record shape `{ num, den }`. -/
structure SerializeRational where
  num : Nat
  den : Nat
deriving DecidableEq

/-- `impl From<Ratio<u32>> for SerializeRational`: copy the components. -/
def ratioToSerializeRational (rational : Ratio) : SerializeRational :=
  ⟨rational.numer, rational.denom⟩

/-- `impl From<SerializeRational> for Ratio<u32>`: `Ratio::new(num, den)`,
panicking (here `none`) on a zero denominator. -/
def serializeRationalToRatio? (s : SerializeRational) : Option Ratio :=
  Ratio.new? s.num s.den

/-- `impl Serialize for FrameRate`: serialize the record built from the
rational form of the value. -/
def FrameRate.serialize (f : FrameRate) : SerializeRational :=
  ratioToSerializeRational (frameRateToRatio f)

/-- `impl Deserialize for FrameRate` at the record level: convert the
record to a rational (failing on a zero denominator) and normalize. -/
def FrameRate.deserialize (s : SerializeRational) : Option FrameRate :=
  (serializeRationalToRatio? s).map ratioToFrameRate

/-- A `FrameRate` in canonical form: it is fixed by normalization, and
its rational form is in lowest terms with a nonzero denominator. All
ten named constants are canonical, and a custom variant is canonical
exactly when it carries a reduced rational that is not a table pair. -/
def FrameRate.canonical (f : FrameRate) : Prop :=
  ratioToFrameRate (frameRateToRatio f) = f ∧ (frameRateToRatio f).Reduced

instance (f : FrameRate) : Decidable f.canonical := by
  unfold FrameRate.canonical; infer_instance

/-! ## Helper lemmas -/

/-- Reducing a pair already in lowest terms changes nothing. -/
theorem Ratio.reduce_of_reduced (r : Ratio) (h : r.Reduced) :
    Ratio.reduce r.numer r.denom = r := by
  rcases r with ⟨n, d⟩
  rcases h with ⟨hg, -⟩
  simp [Ratio.reduce, hg]

set_option maxHeartbeats 2000000 in
/-- Converting back to a rational after normalization returns the input
unchanged: every table branch maps back to its own pair, and the custom
branch carries the rational as is. -/
theorem frameRateToRatio_ratioToFrameRate (r : Ratio) :
    frameRateToRatio (ratioToFrameRate r) = r := by
  rcases r with ⟨n, d⟩
  unfold ratioToFrameRate
  split_ifs with h1 h2 h3 h4 h5 h6 h7 h8 h9 h10
  · obtain ⟨rfl, rfl⟩ := h1; rfl
  · obtain ⟨rfl, rfl⟩ := h2; rfl
  · obtain ⟨rfl, rfl⟩ := h3; rfl
  · obtain ⟨rfl, rfl⟩ := h4; rfl
  · obtain ⟨rfl, rfl⟩ := h5; rfl
  · obtain ⟨rfl, rfl⟩ := h6; rfl
  · obtain ⟨rfl, rfl⟩ := h7; decide
  · obtain ⟨rfl, rfl⟩ := h8; decide
  · obtain ⟨rfl, rfl⟩ := h9; decide
  · obtain ⟨rfl, rfl⟩ := h10; decide
  · rfl

/-- Reduction is invariant under scaling both components by a positive
factor. -/
theorem Ratio.reduce_mul_left (n d k : Nat) (hk : 0 < k) :
    Ratio.reduce (k * n) (k * d) = Ratio.reduce n d := by
  unfold Ratio.reduce
  rw [Nat.gcd_mul_left]
  congr 1 <;> exact Nat.mul_div_mul_left _ _ hk

/-! ## Claim theorems -/

/-- C5: each of the ten named constants converts to exactly its table
rational (24/1, 25/1, 30/1, 50/1, 60/1, 120/1, 24000/1001, 25000/1001,
30000/1001, 60000/1001), with exact rational equality, and the custom
variant returns its carried rational unchanged. -/
theorem C5_to_rational_table :
    frameRateToRatio ._24_00 = ⟨24, 1⟩ ∧
    frameRateToRatio ._25_00 = ⟨25, 1⟩ ∧
    frameRateToRatio ._30_00 = ⟨30, 1⟩ ∧
    frameRateToRatio ._50_00 = ⟨50, 1⟩ ∧
    frameRateToRatio ._60_00 = ⟨60, 1⟩ ∧
    frameRateToRatio ._120_00 = ⟨120, 1⟩ ∧
    frameRateToRatio ._23_97 = ⟨24000, 1001⟩ ∧
    frameRateToRatio ._24_97 = ⟨25000, 1001⟩ ∧
    frameRateToRatio ._29_97 = ⟨30000, 1001⟩ ∧
    frameRateToRatio ._59_94 = ⟨60000, 1001⟩ ∧
    ∀ r : Ratio, frameRateToRatio (.FrCustom r) = r := by
  refine ⟨by decide, by decide, by decide, by decide, by decide, by decide,
    by decide, by decide, by decide, by decide, fun r => rfl⟩

/-- C6: normalizing the rational form of each of the ten named
constants yields the same named constant. -/
theorem C6_normalize_to_rational_named :
    ratioToFrameRate (frameRateToRatio ._24_00) = ._24_00 ∧
    ratioToFrameRate (frameRateToRatio ._25_00) = ._25_00 ∧
    ratioToFrameRate (frameRateToRatio ._30_00) = ._30_00 ∧
    ratioToFrameRate (frameRateToRatio ._50_00) = ._50_00 ∧
    ratioToFrameRate (frameRateToRatio ._60_00) = ._60_00 ∧
    ratioToFrameRate (frameRateToRatio ._120_00) = ._120_00 ∧
    ratioToFrameRate (frameRateToRatio ._23_97) = ._23_97 ∧
    ratioToFrameRate (frameRateToRatio ._24_97) = ._24_97 ∧
    ratioToFrameRate (frameRateToRatio ._29_97) = ._29_97 ∧
    ratioToFrameRate (frameRateToRatio ._59_94) = ._59_94 := by
  decide

/-- C8: deserializing any record whose `den` field is 0 fails and
produces no FrameRate value: the zero-denominator rejection of the
rational constructor propagates as a failure. -/
theorem C8_deserialize_zero_den (n : Nat) :
    FrameRate.deserialize ⟨n, 0⟩ = none := by
  simp [FrameRate.deserialize, serializeRationalToRatio?, Ratio.new?]

/-- C10: converting a normalized rational back to a rational returns
the input exactly, for every rational: the to-rational conversion is a
left inverse of normalization. -/
theorem C10_to_rational_left_inverse (r : Ratio) :
    frameRateToRatio (ratioToFrameRate r) = r :=
  frameRateToRatio_ratioToFrameRate r

/-- C3: deserializing any record with a nonzero denominator succeeds
and returns the normalization of the reduced rational; concretely
200/4 deserializes to the named 50 rate and 6/9 to the custom 2/3. -/
theorem C3_deserialize_contract :
    (∀ n d : Nat, d ≠ 0 → n < 2 ^ 32 → d < 2 ^ 32 →
      FrameRate.deserialize ⟨n, d⟩ = some (ratioToFrameRate (Ratio.reduce n d))) ∧
    FrameRate.deserialize ⟨200, 4⟩ = some ._50_00 ∧
    FrameRate.deserialize ⟨6, 9⟩ = some (.FrCustom ⟨2, 3⟩) := by
  refine ⟨fun n d hd _ _ => ?_, by decide, by decide⟩
  simp [FrameRate.deserialize, serializeRationalToRatio?, Ratio.new?, hd]

/-- Witness for C3 at the record 6/9. -/
theorem C3_deserialize_contract_witness :
    FrameRate.deserialize ⟨6, 9⟩ = some (ratioToFrameRate (Ratio.reduce 6 9)) :=
  C3_deserialize_contract.1 6 9 (by decide) (by decide) (by decide)

/-- C4: normalization is reduction-invariant: scaling numerator and
denominator by the same positive factor does not change the resulting
FrameRate; concretely 2/3 and 6/9 both normalize to the custom 2/3,
and 200/4 normalizes to the named 50 rate. -/
theorem C4_normalize_reduction_invariant :
    (∀ n d k : Nat, d ≠ 0 → 0 < k → k * n < 2 ^ 32 → k * d < 2 ^ 32 →
      ratioToFrameRate (Ratio.reduce n d) =
        ratioToFrameRate (Ratio.reduce (k * n) (k * d))) ∧
    ratioToFrameRate (Ratio.reduce 2 3) = ratioToFrameRate (Ratio.reduce 6 9) ∧
    ratioToFrameRate (Ratio.reduce 2 3) = .FrCustom ⟨2, 3⟩ ∧
    ratioToFrameRate (Ratio.reduce 200 4) = ._50_00 := by
  refine ⟨fun n d k _ hk _ _ => ?_, by decide, by decide, by decide⟩
  rw [Ratio.reduce_mul_left n d k hk]

/-- Witness for C4 at (n, d) = (2, 3) and k = 3. -/
theorem C4_normalize_reduction_invariant_witness :
    ratioToFrameRate (Ratio.reduce 2 3) =
      ratioToFrameRate (Ratio.reduce (3 * 2) (3 * 3)) :=
  C4_normalize_reduction_invariant.1 2 3 3 (by decide) (by decide)
    (by decide) (by decide)

/-- C9: the constructor builds the rational n/d, reduces it and
normalizes it; with a zero denominator it fails (the rational
constructor panic, modelled as none) rather than returning a value. -/
theorem C9_new_contract :
    (∀ n d : Nat, d ≠ 0 → n < 2 ^ 32 → d < 2 ^ 32 →
      FrameRate.new n d = some (ratioToFrameRate (Ratio.reduce n d))) ∧
    ∀ n : Nat, FrameRate.new n 0 = none := by
  refine ⟨fun n d hd _ _ => ?_, fun n => ?_⟩ <;>
    simp [FrameRate.new, Ratio.new?, *]

/-- Witness for C9 at (200, 4). -/
theorem C9_new_contract_witness :
    FrameRate.new 200 4 = some (ratioToFrameRate (Ratio.reduce 200 4)) :=
  C9_new_contract.1 200 4 (by decide) (by decide) (by decide)

/-- C7: each named rate serializes to its literal table pair, and a
custom variant carrying a reduced rational serializes to that
rational's own numerator/denominator pair. -/
theorem C7_serialize_contract :
    FrameRate.serialize ._24_00 = ⟨24, 1⟩ ∧
    FrameRate.serialize ._25_00 = ⟨25, 1⟩ ∧
    FrameRate.serialize ._30_00 = ⟨30, 1⟩ ∧
    FrameRate.serialize ._50_00 = ⟨50, 1⟩ ∧
    FrameRate.serialize ._60_00 = ⟨60, 1⟩ ∧
    FrameRate.serialize ._120_00 = ⟨120, 1⟩ ∧
    FrameRate.serialize ._23_97 = ⟨24000, 1001⟩ ∧
    FrameRate.serialize ._24_97 = ⟨25000, 1001⟩ ∧
    FrameRate.serialize ._29_97 = ⟨30000, 1001⟩ ∧
    FrameRate.serialize ._59_94 = ⟨60000, 1001⟩ ∧
    ∀ r : Ratio, r.Reduced →
      FrameRate.serialize (.FrCustom r) = ⟨r.numer, r.denom⟩ := by
  refine ⟨by decide, by decide, by decide, by decide, by decide, by decide,
    by decide, by decide, by decide, by decide, fun r _ => rfl⟩

/-- Witness for C7 at the reduced custom rational 2/3. -/
theorem C7_serialize_contract_witness :
    Ratio.Reduced ⟨2, 3⟩ ∧ FrameRate.serialize (.FrCustom ⟨2, 3⟩) = ⟨2, 3⟩ :=
  ⟨by decide, C7_serialize_contract.2.2.2.2.2.2.2.2.2.2 ⟨2, 3⟩ (by decide)⟩

/-- C1 counterexample: the custom variant carrying the rational 50/1 is
a FrameRate value whose serialized record 50/1 deserializes to the
named constant, not back to the custom variant, so the round-trip
fails on it. -/
theorem C1_roundtrip_counterexample :
    FrameRate.serialize (.FrCustom ⟨50, 1⟩) = ⟨50, 1⟩ ∧
    FrameRate.deserialize ⟨50, 1⟩ = some ._50_00 ∧
    FrameRate.deserialize (FrameRate.serialize (.FrCustom ⟨50, 1⟩)) ≠
      some (.FrCustom ⟨50, 1⟩) := by
  decide

/-- C1 (amended): deserializing the serialized record of v returns
exactly v for every canonical FrameRate v: every named constant, and
every custom variant carrying a reduced rational that is not one of
the ten table pairs. -/
theorem C1_roundtrip_canonical (v : FrameRate) (h : v.canonical) :
    FrameRate.deserialize (FrameRate.serialize v) = some v := by
  obtain ⟨h1, hred⟩ := h
  have hd : (frameRateToRatio v).denom ≠ 0 := hred.2
  simp [FrameRate.deserialize, FrameRate.serialize, serializeRationalToRatio?,
    ratioToSerializeRational, Ratio.new?, hd,
    Ratio.reduce_of_reduced _ hred, h1]

/-- Witness for C1 (amended) at the custom rational 2/3. -/
theorem C1_roundtrip_canonical_witness :
    FrameRate.canonical (.FrCustom ⟨2, 3⟩) ∧
    FrameRate.deserialize (FrameRate.serialize (.FrCustom ⟨2, 3⟩)) =
      some (.FrCustom ⟨2, 3⟩) :=
  ⟨by decide, C1_roundtrip_canonical _ (by decide)⟩

/-- C2 counterexample: the custom variant carrying 50/1 and the named
50 constant have equal rational forms yet compare unequal under the
derived equality. -/
theorem C2_equality_counterexample :
    frameRateToRatio (.FrCustom ⟨50, 1⟩) = frameRateToRatio ._50_00 ∧
    FrameRate.FrCustom ⟨50, 1⟩ ≠ ._50_00 := by
  decide

/-- C2 (amended): on canonical FrameRate values (named constants, and
custom variants carrying a reduced non-table rational) equality holds
iff the rational forms are equal. -/
theorem C2_equality_canonical (a b : FrameRate)
    (ha : a.canonical) (hb : b.canonical) :
    a = b ↔ frameRateToRatio a = frameRateToRatio b := by
  constructor
  · rintro rfl; rfl
  · intro h
    calc a = ratioToFrameRate (frameRateToRatio a) := ha.1.symm
    _ = ratioToFrameRate (frameRateToRatio b) := by rw [h]
    _ = b := hb.1

/-- Witness for C2 (amended) at a named constant and a custom value. -/
theorem C2_equality_canonical_witness :
    FrameRate.canonical ._24_00 ∧ FrameRate.canonical (.FrCustom ⟨2, 3⟩) ∧
    (FrameRate._24_00 = .FrCustom ⟨2, 3⟩ ↔
      frameRateToRatio ._24_00 = frameRateToRatio (.FrCustom ⟨2, 3⟩)) :=
  ⟨by decide, by decide, C2_equality_canonical _ _ (by decide) (by decide)⟩

end FrameRateLib
